import Mathlib

/-
Verification development for the Apple SMC hwmon drivers
(drivers/hwmon/macsmc-hwmon.c and drivers/hwmon/applesmc-arm.c).

The C sources are shallowly embedded: machine integers are modelled as
Nat (with explicit reduction modulo 2^32 or 2^64 where the C width
matters), FourCC tags and device-tree strings are modelled as String,
fallible operations return Option or Except, and the SMC transport and
the device-tree access primitives (which live outside the hwmon
sources) are abstract oracle functions carried in a structure.

Shift semantics: the C sources shift 64-bit unsigned values by amounts
that can reach or exceed the operand width (which is undefined
behaviour in C).  The embedding totalises such shifts by computing the
mathematical shift and truncating modulo 2^64; each place where this
matters is noted.
-/

/-! ## Kernel error codes used by the drivers -/

def EINVAL : Int := 22

def ENODEV : Int := 19

def EOPNOTSUPP : Int := 95

/-! ## The float decoder of applesmc-arm.c (macsmc_f32_to_u32)

The C source:

  sign = flt>>31;
  exp = flt>>23;
  mant = flt<<9>>9;

Note that `exp` is the top NINE bits of the word (the shift is not
masked with 0xff), so it includes the sign bit.
-/

/-- Sign extraction, `sign = flt>>31` (flt is a u32). -/
def f32_sign (flt : Nat) : Nat := (flt % 2 ^ 32) >>> 31

/-- Exponent extraction exactly as in the source, `exp = flt>>23`:
the unmasked shift keeps nine bits, including the sign bit. -/
def f32_exp (flt : Nat) : Nat := (flt % 2 ^ 32) >>> 23

/-- Mantissa extraction, `mant = flt<<9>>9` on a u32: the left shift
wraps modulo 2^32, so this is the low 23 bits. -/
def f32_mant (flt : Nat) : Nat := (((flt % 2 ^ 32) <<< 9) % 2 ^ 32) >>> 9

/-- The mantissa accumulation loop of macsmc_f32_to_u32:
for i = 22 down to 0, `val += ((mant & (1<<i)) >> i) * (1000000000 >> (23 - i))`.
`val` is a 64-bit unsigned long; the sum stays far below 2^64, so no
truncation is needed. -/
def f32_mant_val (mant : Nat) : Nat :=
  ((List.range 23).reverse).foldl
    (fun val i => val + ((mant &&& (1 <<< i)) >>> i) * (1000000000 >>> (23 - i))) 0

/-- Left shift of a 64-bit unsigned long, truncating modulo 2^64.
The C source reaches shift amounts of 64 and above here (undefined
behaviour in C); the embedding totalises them by truncation. -/
def shl64 (x s : Nat) : Nat := (x <<< s) % 2 ^ 64

/-- Right shift of a 64-bit unsigned long. -/
def shr64 (x s : Nat) : Nat := (x % 2 ^ 64) >>> s

/-- Conversion of a Nat to the value of a C s32 holding its low
32 bits (two's-complement reading), modelling the implementation-
defined unsigned-to-s32 conversion the source performs when assigning
`result`. -/
def toS32 (x : Nat) : Int :=
  if x % 2 ^ 32 < 2 ^ 31 then ((x % 2 ^ 32 : Nat) : Int)
  else ((x % 2 ^ 32 : Nat) : Int) - 2 ^ 32

/-- Reading a u32 back as a signed 32-bit value (how a caller that
stores the result into a signed long would interpret it). -/
def asS32 (x : Nat) : Int := toS32 x

/-- macsmc_f32_to_u32 from applesmc-arm.c, embedded step for step.
The function's result is the u32 the C function returns (the signed
`result` converted back to u32). -/
def macsmc_f32_to_u32 (flt : Nat) : Nat :=
  let sign := f32_sign flt
  let exp := f32_exp flt
  let mant := f32_mant flt
  let result : Int :=
    if exp = 0 ∧ mant ≠ 0 then
      let val := f32_mant_val mant
      if exp > 127 then toS32 (shl64 val (exp - 127) / 1000000)
      else toS32 (shr64 val (127 - exp) / 1000000)
    else if ¬(exp = 0 ∧ mant = 0) then
      let val := f32_mant_val mant
      if exp > 127 then toS32 (shl64 (val + 1000000000) (exp - 127) / 1000000)
      else toS32 (shr64 (val + 1000000000) (127 - exp) / 1000000)
    else 0
  let result := if sign = 1 then -result else result
  (result % (2 ^ 32 : Int)).toNat

/-! ## Data model of macsmc-hwmon.c -/

/-- Modelled from the spec: struct apple_smc_key_info from the macsmc
mfd header (linux/mfd/macsmc.h, not under src/): the controller's
declared wire type tag for a key, plus its byte size.  The FourCC type
tag is modelled as a String ("flt " and "ioft" are the two encodings
the driver understands); a freshly zeroed info record is modelled with
the empty string, which matches neither tag. -/
structure AppleSmcKeyInfo where
  typeCode : String
  size : Nat
deriving DecidableEq

/-- struct macsmc_hwmon_sensor: resolved key info, the key id, and the
32-byte label buffer (modelled as a list of byte values). -/
structure MacsmcHwmonSensor where
  info : AppleSmcKeyInfo
  macsmcKey : String
  label : List Nat
deriving DecidableEq

/-- A macsmc_hwmon_sensor as devm_kzalloc leaves it: all bytes zero. -/
def zeroSensor : MacsmcHwmonSensor :=
  { info := { typeCode := "", size := 0 }, macsmcKey := "", label := List.replicate 32 0 }

/-- struct macsmc_hwmon_fan: the mandatory tachometer sensor, the
three optional sensors, the fan label buffer and the capability
bitmask `attrs`. -/
structure MacsmcHwmonFan where
  now : MacsmcHwmonSensor
  min : MacsmcHwmonSensor
  max : MacsmcHwmonSensor
  set : MacsmcHwmonSensor
  label : List Nat
  attrs : Nat
deriving DecidableEq

/-- A macsmc_hwmon_fan as devm_kzalloc leaves it. -/
def zeroFan : MacsmcHwmonFan :=
  { now := zeroSensor, min := zeroSensor, max := zeroSensor, set := zeroSensor,
    label := List.replicate 32 0, attrs := 0 }

/-- Modelled from the spec: the transport collaborator interface of
§6 (the apple_smc functions live in the macsmc mfd driver, not under
src/).  getKeyInfo is apple_smc_get_key_info collapsed to an Option
(the hwmon code only tests success); the two scaled readers and the
raw u32 reader return either a value or a negative errno. -/
structure AppleSmc where
  getKeyInfo : String → Option AppleSmcKeyInfo
  readF32Scaled : String → Nat → Except Int Int
  readIoftScaled : String → Nat → Except Int Int
  readU32 : String → Except Int Nat

/-- Modelled from the spec: one child node of a key-group node in the
hardware description tree (§6 description_tree interface): the
string properties the driver looks up.  None models an absent
property (of_property_read_string failing). -/
structure DTNode where
  keyId : Option String
  keyDesc : Option String
  fanMin : Option String
  fanMax : Option String
  fanTarget : Option String
deriving DecidableEq

/-- Modelled from the spec: the macsmc-hwmon description node with its
five named key-group children; None models of_get_child_by_name
finding no such group node. -/
structure HwmonNode where
  tempKeys : Option (List DTNode)
  voltKeys : Option (List DTNode)
  currKeys : Option (List DTNode)
  powerKeys : Option (List DTNode)
  fanKeys : Option (List DTNode)

/-! ## Label copying (strncpy with n = sizeof(label) = 32) -/

/-- C strncpy of src into an n-byte destination buffer, returning the
buffer contents: the first min(len(src), n) bytes are copied, and if
src is shorter than n the remainder is zero-filled.  When src has at
least n bytes, NO terminating zero is written. -/
def strncpyBuf (src : List Nat) (n : Nat) : List Nat :=
  src.take n ++ List.replicate (n - src.length) 0

/-- The bytes of a device-tree string. -/
def strBytes (s : String) : List Nat := s.data.map Char.toNat

/-! ## Registry construction (macsmc-hwmon.c) -/

/-- macsmc_hwmon_parse_key: resolve a key id through the SMC; on
success the sensor's info and key fields are filled (the label stays
zeroed — create_sensor and create_fan write labels separately). -/
def macsmc_hwmon_parse_key (smc : AppleSmc) (key : String) : Option MacsmcHwmonSensor :=
  match smc.getKeyInfo key with
  | none => none
  | some info => some { info := info, macsmcKey := key, label := List.replicate 32 0 }

/-- macsmc_hwmon_create_sensor: mandatory apple,key-id property, key
resolution, then the label is strncpy-ed from apple,key-desc, falling
back to the key id itself. -/
def macsmc_hwmon_create_sensor (smc : AppleSmc) (node : DTNode) :
    Option MacsmcHwmonSensor :=
  match node.keyId with
  | none => none
  | some key =>
    match macsmc_hwmon_parse_key smc key with
    | none => none
    | some sensor =>
      match node.keyDesc with
      | some l => some { sensor with label := strncpyBuf (strBytes l) 32 }
      | none => some { sensor with label := strncpyBuf (strBytes key) 32 }

/-! Modelled from the spec: the hwmon front end's fan attribute
indices and flag bits (include/linux/hwmon.h, not under src/):
enable = 0, input = 1, label = 2, min = 3, max = 4, div = 5,
pulses = 6, target = 7, and HWMON_F_x = BIT(hwmon_fan_x). -/

def hwmon_fan_input : Nat := 1

def hwmon_fan_label : Nat := 2

def hwmon_fan_min : Nat := 3

def hwmon_fan_max : Nat := 4

def hwmon_fan_target : Nat := 7

def HWMON_F_INPUT : Nat := 2 ^ hwmon_fan_input

def HWMON_F_LABEL : Nat := 2 ^ hwmon_fan_label

def HWMON_F_MIN : Nat := 2 ^ hwmon_fan_min

def HWMON_F_MAX : Nat := 2 ^ hwmon_fan_max

def HWMON_F_TARGET : Nat := 2 ^ hwmon_fan_target

/-- One optional fan key (apple,fan-minimum / -maximum / -target):
if the property is present and its key resolves, the corresponding
sensor is filled and the given capability bit contributed; absence or
resolution failure contributes a zero sensor and no bit. -/
def parseOptFanKey (smc : AppleSmc) (prop : Option String) (bit : Nat) :
    MacsmcHwmonSensor × Nat :=
  match prop with
  | none => (zeroSensor, 0)
  | some k =>
    match macsmc_hwmon_parse_key smc k with
    | none => (zeroSensor, 0)
    | some s => (s, bit)

/-- macsmc_hwmon_create_fan: the mandatory apple,key-id resolves the
tachometer (failure fails the fan entry); the label is strncpy-ed from
apple,key-desc with the key id as fallback; attrs always contains
LABEL and INPUT; each optional key contributes its bit only when
present and resolvable. -/
def macsmc_hwmon_create_fan (smc : AppleSmc) (node : DTNode) : Option MacsmcHwmonFan :=
  match node.keyId with
  | none => none
  | some now =>
    match macsmc_hwmon_parse_key smc now with
    | none => none
    | some nowS =>
      let label := match node.keyDesc with
        | some l => strncpyBuf (strBytes l) 32
        | none => strncpyBuf (strBytes now) 32
      let minP := parseOptFanKey smc node.fanMin HWMON_F_MIN
      let maxP := parseOptFanKey smc node.fanMax HWMON_F_MAX
      let setP := parseOptFanKey smc node.fanTarget HWMON_F_TARGET
      some { now := nowS, min := minP.1, max := maxP.1, set := setP.1,
             label := label,
             attrs := HWMON_F_LABEL ||| HWMON_F_INPUT ||| minP.2 ||| maxP.2 ||| setP.2 }

/-- The sensor-population loop of macsmc_hwmon_populate_sensors: each
child for which create_sensor succeeds is written at the next free
slot (index i, incremented only on success), so failed children are
skipped and the survivors are packed in child order.  The result is
the populated prefix of the array (length = final i = n_sensors). -/
def populateLoop (smc : AppleSmc) : List DTNode → List MacsmcHwmonSensor
  | [] => []
  | node :: rest =>
    match macsmc_hwmon_create_sensor smc node with
    | some s => s :: populateLoop smc rest
    | none => populateLoop smc rest

/-- The fan-population loop of macsmc_hwmon_populate_sensors. -/
def populateFanLoop (smc : AppleSmc) : List DTNode → List MacsmcHwmonFan
  | [] => []
  | node :: rest =>
    match macsmc_hwmon_create_fan smc node with
    | some f => f :: populateFanLoop smc rest
    | none => populateFanLoop smc rest

/-- macsmc_hwmon_populate_sensors for an ordinary sensor group:
absent group node or zero children yield -EOPNOTSUPP; zero resolved
children yield -EINVAL; otherwise the populated sensor list. -/
def macsmc_hwmon_populate_sensors (smc : AppleSmc) (group : Option (List DTNode)) :
    Except Int (List MacsmcHwmonSensor) :=
  match group with
  | none => .error (-EOPNOTSUPP)
  | some children =>
    if children.length = 0 then .error (-EOPNOTSUPP)
    else
      let sensors := populateLoop smc children
      if sensors.length = 0 then .error (-EINVAL)
      else .ok sensors

/-- The sensors a group struct holds after its populate call returned
(with the return value ignored, as the probe routine does): an absent
group leaves the zeroed struct (no sensors); a present group holds the
populated prefix, possibly empty. -/
def groupSensors (smc : AppleSmc) (group : Option (List DTNode)) :
    List MacsmcHwmonSensor :=
  match group with
  | none => []
  | some children => populateLoop smc children

/-- Fan counterpart of groupSensors. -/
def groupFans (smc : AppleSmc) (group : Option (List DTNode)) : List MacsmcHwmonFan :=
  match group with
  | none => []
  | some children => populateFanLoop smc children

/-- The finished registry: the five collections the probe routine
leaves in struct macsmc_hwmon. -/
structure Registry where
  temp : List MacsmcHwmonSensor
  volt : List MacsmcHwmonSensor
  curr : List MacsmcHwmonSensor
  power : List MacsmcHwmonSensor
  fans : List MacsmcHwmonFan

/-- The registry-building portion of macsmc_hwmon_probe: populate the
five groups (per-group errors are logged and ignored), then fail with
-ENODEV exactly when the final all-groups-empty test fires. -/
def macsmc_hwmon_probe_core (smc : AppleSmc) (node : HwmonNode) : Except Int Registry :=
  let temp := groupSensors smc node.tempKeys
  let power := groupSensors smc node.powerKeys
  let volt := groupSensors smc node.voltKeys
  let curr := groupSensors smc node.currKeys
  let fans := groupFans smc node.fanKeys
  if temp.length = 0 ∧ volt.length = 0 ∧ curr.length = 0 ∧ power.length = 0 ∧
      fans.length = 0 then
    .error (-ENODEV)
  else
    .ok { temp := temp, volt := volt, curr := curr, power := power, fans := fans }

/-! ## Read path (macsmc-hwmon.c) -/

/-- struct macsmc_hwmon_sensors: the devm_kzalloc-ed key array (its
full allocated extent, zero-filled beyond the populated prefix) plus
the recorded populated count n_sensors. -/
structure MacsmcHwmonSensors where
  sensors : List MacsmcHwmonSensor
  nSensors : Nat

/-- struct macsmc_hwmon_fans. -/
structure MacsmcHwmonFans where
  fans : List MacsmcHwmonFan
  nFans : Nat

/-- struct macsmc_hwmon (the read-time state). -/
structure MacsmcHwmon where
  smc : AppleSmc
  temp : MacsmcHwmonSensors
  volt : MacsmcHwmonSensors
  curr : MacsmcHwmonSensors
  power : MacsmcHwmonSensors
  fan : MacsmcHwmonFans

/-- The hwmon_sensor_types values the driver handles. -/
inductive HwmonType where
  | temp
  | voltage
  | current
  | power
  | fan
deriving DecidableEq

/-- macsmc_hwmon_read_key: dispatch on the sensor's recorded FourCC
type code; the two known encodings call the corresponding scaled
transport reader (any transport failure is mapped to -EINVAL), every
other type code returns -EOPNOTSUPP without touching the transport.
The second component records the transport calls made (the key read,
in order). -/
def macsmc_hwmon_read_key (smc : AppleSmc) (sensor : MacsmcHwmonSensor)
    (scale : Nat) : Except Int Int × List String :=
  if sensor.info.typeCode = "flt " then
    match smc.readF32Scaled sensor.macsmcKey scale with
    | .ok v => (.ok v, [sensor.macsmcKey])
    | .error _ => (.error (-EINVAL), [sensor.macsmcKey])
  else if sensor.info.typeCode = "ioft" then
    match smc.readIoftScaled sensor.macsmcKey scale with
    | .ok v => (.ok v, [sensor.macsmcKey])
    | .error _ => (.error (-EINVAL), [sensor.macsmcKey])
  else
    (.error (-EOPNOTSUPP), [])

/-- macsmc_hwmon_read_fan: the C indexes fans[chan] with no bounds
check (None models an access past the allocated array, which is
undefined behaviour); the capability bitmask is tested before
anything else, an unset bit returning -EINVAL with no transport call;
a set bit dispatches to read_key on the field's sensor at scale 1. -/
def macsmc_hwmon_read_fan (hwmon : MacsmcHwmon) (attr chan : Nat) :
    Option (Except Int Int × List String) :=
  match hwmon.fan.fans.get? chan with
  | none => none
  | some f =>
    if f.attrs &&& (1 <<< attr) = 0 then some (.error (-EINVAL), [])
    else if attr = hwmon_fan_input then
      some (macsmc_hwmon_read_key hwmon.smc f.now 1)
    else if attr = hwmon_fan_min then
      some (macsmc_hwmon_read_key hwmon.smc f.min 1)
    else if attr = hwmon_fan_max then
      some (macsmc_hwmon_read_key hwmon.smc f.max 1)
    else if attr = hwmon_fan_target then
      some (macsmc_hwmon_read_key hwmon.smc f.set 1)
    else some (.error (-EINVAL), [])

/-- macsmc_hwmon_read: the C indexes the group's sensor array with the
caller's channel number and NO bounds check (None models an access
past the allocated array, which is undefined behaviour), then
dispatches to read_key with the group's fixed scale (milli for
temperature, voltage and current, micro for power). -/
def macsmc_hwmon_read (hwmon : MacsmcHwmon) (type : HwmonType) (attr chan : Nat) :
    Option (Except Int Int × List String) :=
  match type with
  | .temp => (hwmon.temp.sensors.get? chan).map
      (fun s => macsmc_hwmon_read_key hwmon.smc s 1000)
  | .voltage => (hwmon.volt.sensors.get? chan).map
      (fun s => macsmc_hwmon_read_key hwmon.smc s 1000)
  | .current => (hwmon.curr.sensors.get? chan).map
      (fun s => macsmc_hwmon_read_key hwmon.smc s 1000)
  | .power => (hwmon.power.sensors.get? chan).map
      (fun s => macsmc_hwmon_read_key hwmon.smc s 1000000)
  | .fan => macsmc_hwmon_read_fan hwmon attr chan

/-- macsmc_hwmon_read_label: unlike macsmc_hwmon_read, this DOES
bounds-check the channel against the populated count and returns
-EINVAL for an out-of-range channel, with no transport call ever. -/
def macsmc_hwmon_read_label (hwmon : MacsmcHwmon) (type : HwmonType) (chan : Nat) :
    Except Int (List Nat) :=
  match type with
  | .temp =>
    if hwmon.temp.nSensors ≤ chan then .error (-EINVAL)
    else .ok (hwmon.temp.sensors.getD chan zeroSensor).label
  | .voltage =>
    if hwmon.volt.nSensors ≤ chan then .error (-EINVAL)
    else .ok (hwmon.volt.sensors.getD chan zeroSensor).label
  | .current =>
    if hwmon.curr.nSensors ≤ chan then .error (-EINVAL)
    else .ok (hwmon.curr.sensors.getD chan zeroSensor).label
  | .power =>
    if hwmon.power.nSensors ≤ chan then .error (-EINVAL)
    else .ok (hwmon.power.sensors.getD chan zeroSensor).label
  | .fan =>
    if hwmon.fan.nFans ≤ chan then .error (-EINVAL)
    else .ok (hwmon.fan.fans.getD chan zeroFan).label

/-! ## Channel-config builders (macsmc-hwmon.c) -/

/-- macsmc_hwmon_populate_configs, modelled as the list of (index,
value) stores it performs into the configs array: the loop writes
`configs[idx] = flags` for idx = 0 .. num_keys-1, leaving idx equal to
num_keys, and then executes `configs[idx + 1] = 0`. -/
def macsmc_hwmon_populate_configs (numKeys flags : Nat) : List (Nat × Nat) :=
  ((List.range numKeys).map (fun idx => (idx, flags))) ++ [(numKeys + 1, 0)]

/-- macsmc_hwmon_populate_fan_configs, likewise as its list of
(index, value) stores: per-fan attrs then `configs[idx + 1] = 0`. -/
def macsmc_hwmon_populate_fan_configs (numKeys : Nat) (fans : List MacsmcHwmonFan) :
    List (Nat × Nat) :=
  ((List.range numKeys).map (fun idx => (idx, (fans.getD idx zeroFan).attrs))) ++
    [(numKeys + 1, 0)]

/-! ## The prototype read path of applesmc-arm.c -/

/-- The per-platform sensor tables of applesmc-arm.c, reduced to the
key ids the read path consumes. -/
structure ArmHwmonData where
  temps : List String
  powers : List String

/-- The hwmon_sensor_types cases applesmc-arm.c handles. -/
inductive ArmType where
  | temp
  | power
deriving DecidableEq

/-- The body of applesmc-arm.c's macsmc_hwmon_read once the key is
picked: `ret = apple_smc_read_u32(smc, key, &readback)` is executed —
and ret is then never tested — so on transport failure readback keeps
its initialiser 0, `*val = macsmc_f32_to_u32(readback)` runs anyway,
and the function returns 0 (success).  The transport call made is
recorded in the second component. -/
def applesmc_arm_read_key (smc : AppleSmc) (key : String) : Except Int Int × List String :=
  let readback : Nat :=
    match smc.readU32 key with
    | .ok v => v % 2 ^ 32
    | .error _ => 0
  (.ok ((macsmc_f32_to_u32 readback : Nat) : Int), [key])

/-- applesmc-arm.c's macsmc_hwmon_read: pick the key from the matched
platform table at the caller's channel (no bounds check; None models
an access past the table) and run the unchecked read-and-decode. -/
def applesmc_arm_read (smc : AppleSmc) (data : ArmHwmonData) (type : ArmType)
    (chan : Nat) : Option (Except Int Int × List String) :=
  match type with
  | .temp => (data.temps.get? chan).map (fun key => applesmc_arm_read_key smc key)
  | .power => (data.powers.get? chan).map (fun key => applesmc_arm_read_key smc key)

deriving instance DecidableEq for Except

deriving instance DecidableEq for Registry

/-! ## Well-formedness of a built hwmon state

macsmc_hwmon_probe allocates each group's key array with devm_kzalloc
sized by the child count and then populates a prefix of it, so in any
state the read path can actually see, the populated count is at most
the allocated length and every slot past the populated prefix still
has its zero-initialised contents. -/

/-- Allocated-array well-formedness for one sensor group. -/
abbrev sensorsWF (g : MacsmcHwmonSensors) : Prop :=
  g.nSensors ≤ g.sensors.length ∧ ∀ s ∈ g.sensors.drop g.nSensors, s = zeroSensor

/-- Allocated-array well-formedness for the fan group. -/
abbrev fansWF (g : MacsmcHwmonFans) : Prop :=
  g.nFans ≤ g.fans.length ∧ ∀ f ∈ g.fans.drop g.nFans, f = zeroFan

/-- Well-formedness of the whole read-time state. -/
abbrev hwmonWF (hw : MacsmcHwmon) : Prop :=
  sensorsWF hw.temp ∧ sensorsWF hw.volt ∧ sensorsWF hw.curr ∧
  sensorsWF hw.power ∧ fansWF hw.fan

/-- Populated channel count of each group. -/
def populatedCount (hw : MacsmcHwmon) : HwmonType → Nat
  | .temp => hw.temp.nSensors
  | .voltage => hw.volt.nSensors
  | .current => hw.curr.nSensors
  | .power => hw.power.nSensors
  | .fan => hw.fan.nFans

/-- Allocated array length of each group. -/
def allocatedCount (hw : MacsmcHwmon) : HwmonType → Nat
  | .temp => hw.temp.sensors.length
  | .voltage => hw.volt.sensors.length
  | .current => hw.curr.sensors.length
  | .power => hw.power.sensors.length
  | .fan => hw.fan.fans.length

/-- The error code macsmc_hwmon_read actually produces for a channel
past the populated prefix (but within the allocation): the zeroed
descriptor's type code is unknown, so the sensor groups yield
-EOPNOTSUPP; the zeroed fan's capability mask is 0, so the fan group
yields -EINVAL. -/
def oorCode : HwmonType → Int
  | .fan => -EINVAL
  | _ => -EOPNOTSUPP

/-- The fan field sensor each attribute dispatches to. -/
def fanFieldSensor (f : MacsmcHwmonFan) (attr : Nat) : MacsmcHwmonSensor :=
  if attr = hwmon_fan_input then f.now
  else if attr = hwmon_fan_min then f.min
  else if attr = hwmon_fan_max then f.max
  else f.set

/-! ## Concrete fixtures used by witnesses and counterexamples -/

/-- Key info for a float-typed key. -/
def infoFlt : AppleSmcKeyInfo := { typeCode := "flt ", size := 4 }

/-- A resolved float sensor. -/
def sensorFlt : MacsmcHwmonSensor :=
  { info := infoFlt, macsmcKey := "Tp01", label := List.replicate 32 0 }

/-- An SMC oracle that resolves a fixed set of keys (as float keys)
and serves every read successfully. -/
def smcSel : AppleSmc :=
  { getKeyInfo := fun k =>
      if k = "Tp01" ∨ k = "Tp03" ∨ k = "F0Ac" ∨ k = "F0Mn" then some infoFlt else none,
    readF32Scaled := fun _ _ => .ok 41500,
    readIoftScaled := fun _ _ => .ok 1200,
    readU32 := fun _ => .ok 0x3F000000 }

/-- An SMC oracle whose every transport read fails with -5, while key
metadata still resolves. -/
def smcFailRead : AppleSmc :=
  { getKeyInfo := fun _ => some infoFlt,
    readF32Scaled := fun _ _ => .error (-5),
    readIoftScaled := fun _ _ => .error (-5),
    readU32 := fun _ => .error (-5) }

/-- A description-tree child whose key resolves (with a key-desc). -/
def nodeA : DTNode :=
  { keyId := some "Tp01", keyDesc := some "CPU Temp", fanMin := none,
    fanMax := none, fanTarget := none }

/-- A child whose key does not resolve under smcSel. -/
def nodeBad : DTNode :=
  { keyId := some "Tp02", keyDesc := none, fanMin := none,
    fanMax := none, fanTarget := none }

/-- A second child whose key resolves (no key-desc, so the key id
becomes the label). -/
def nodeC : DTNode :=
  { keyId := some "Tp03", keyDesc := none, fanMin := none,
    fanMax := none, fanTarget := none }

/-- A fan node with a resolvable tachometer and minimum key, an
unresolvable maximum key, and no target property. -/
def nodeFanW : DTNode :=
  { keyId := some "F0Ac", keyDesc := none, fanMin := some "F0Mn",
    fanMax := some "F0Mx", fanTarget := none }

/-- A fan descriptor with only LABEL and INPUT capabilities. -/
def fanW : MacsmcHwmonFan :=
  { now := sensorFlt, min := zeroSensor, max := zeroSensor, set := zeroSensor,
    label := List.replicate 32 0, attrs := HWMON_F_LABEL ||| HWMON_F_INPUT }

/-- A read-time state whose temperature group has one populated
sensor inside a two-slot allocation, and one allocated-but-unpopulated
fan slot. -/
def hwC1 : MacsmcHwmon :=
  { smc := smcSel,
    temp := { sensors := [sensorFlt, zeroSensor], nSensors := 1 },
    volt := { sensors := [], nSensors := 0 },
    curr := { sensors := [], nSensors := 0 },
    power := { sensors := [], nSensors := 0 },
    fan := { fans := [zeroFan], nFans := 0 } }

/-- A read-time state with one populated fan of capabilities
LABEL | INPUT. -/
def hwF : MacsmcHwmon :=
  { smc := smcSel,
    temp := { sensors := [], nSensors := 0 },
    volt := { sensors := [], nSensors := 0 },
    curr := { sensors := [], nSensors := 0 },
    power := { sensors := [], nSensors := 0 },
    fan := { fans := [fanW], nFans := 1 } }

/-- The applesmc-arm platform tables, reduced to their keys. -/
def armData : ArmHwmonData := { temps := ["TSCD"], powers := ["PHPC"] }

/-- A 40-character label source with no NUL byte. -/
def longLabel : String := "aaaaaaaaaaaaaaaaaaaaaaaaaaaaaaaaaaaaaaaa"

/-- A sensor child whose key-desc is longer than the 32-byte label
field. -/
def nodeC9 : DTNode :=
  { keyId := some "Tp01", keyDesc := some longLabel, fanMin := none,
    fanMax := none, fanTarget := none }

/-- The sensor macsmc_hwmon_create_sensor builds from nodeC9: its
label buffer is 32 copies of the byte 97 with no terminating zero. -/
def sC9 : MacsmcHwmonSensor :=
  { info := infoFlt, macsmcKey := "Tp01", label := List.replicate 32 97 }

/-- A description node on which every group is present but nothing
resolves (or the group has no resolvable children). -/
def nodeEmptyW : HwmonNode :=
  { tempKeys := some [nodeBad], voltKeys := none, currKeys := none,
    powerKeys := none, fanKeys := some [] }

/-- A description node with one resolvable temperature child. -/
def nodeOkW : HwmonNode :=
  { tempKeys := some [nodeA], voltKeys := none, currKeys := none,
    powerKeys := none, fanKeys := none }

/-- The registry macsmc_hwmon_probe_core builds from nodeOkW. -/
def regW : Registry :=
  { temp := [{ info := infoFlt, macsmcKey := "Tp01",
               label := strncpyBuf (strBytes "CPU Temp") 32 }],
    volt := [], curr := [], power := [], fans := [] }

/-! ## Helper lemmas -/

/-- The population loop keeps exactly the children create_sensor
accepts, in child order. -/
theorem populateLoop_eq_filterMap (smc : AppleSmc) (l : List DTNode) :
    populateLoop smc l = l.filterMap (macsmc_hwmon_create_sensor smc) := by
  induction l with
  | nil => rfl
  | cons n rest ih =>
    cases h : macsmc_hwmon_create_sensor smc n <;>
      simp [populateLoop, List.filterMap_cons, h, ih]

/-- The populated count is the number of resolvable children. -/
theorem populateLoop_length (smc : AppleSmc) (l : List DTNode) :
    (populateLoop smc l).length =
      l.countP (fun n => (macsmc_hwmon_create_sensor smc n).isSome) := by
  induction l with
  | nil => rfl
  | cons n rest ih =>
    cases h : macsmc_hwmon_create_sensor smc n <;>
      simp [populateLoop, List.countP_cons, h, ih]

/-- The population loop yields nothing exactly when no child
resolves. -/
theorem populateLoop_eq_nil_iff (smc : AppleSmc) (l : List DTNode) :
    populateLoop smc l = [] ↔ ∀ n ∈ l, macsmc_hwmon_create_sensor smc n = none := by
  induction l with
  | nil => simp [populateLoop]
  | cons n rest ih =>
    cases h : macsmc_hwmon_create_sensor smc n <;>
      simp [populateLoop, h, ih]

/-- The fan population loop yields nothing exactly when no fan child
resolves. -/
theorem populateFanLoop_eq_nil_iff (smc : AppleSmc) (l : List DTNode) :
    populateFanLoop smc l = [] ↔ ∀ n ∈ l, macsmc_hwmon_create_fan smc n = none := by
  induction l with
  | nil => simp [populateFanLoop]
  | cons n rest ih =>
    cases h : macsmc_hwmon_create_fan smc n <;>
      simp [populateFanLoop, h, ih]

/-- No child of a (possibly absent) sensor group resolves. -/
abbrev noResolvedSensorChild (smc : AppleSmc) (g : Option (List DTNode)) : Prop :=
  ∀ n ∈ g.getD [], macsmc_hwmon_create_sensor smc n = none

/-- No child of a (possibly absent) fan group resolves. -/
abbrev noResolvedFanChild (smc : AppleSmc) (g : Option (List DTNode)) : Prop :=
  ∀ n ∈ g.getD [], macsmc_hwmon_create_fan smc n = none

/-- Normal form of the probe core's final dispatch: the five length
tests read as emptiness of the five recorded group lists. -/
theorem probe_core_eq (smc : AppleSmc) (node : HwmonNode) :
    macsmc_hwmon_probe_core smc node =
      if groupSensors smc node.tempKeys = [] ∧ groupSensors smc node.voltKeys = [] ∧
          groupSensors smc node.currKeys = [] ∧ groupSensors smc node.powerKeys = [] ∧
          groupFans smc node.fanKeys = [] then
        .error (-ENODEV)
      else
        .ok { temp := groupSensors smc node.tempKeys,
              volt := groupSensors smc node.voltKeys,
              curr := groupSensors smc node.currKeys,
              power := groupSensors smc node.powerKeys,
              fans := groupFans smc node.fanKeys } := by
  simp only [macsmc_hwmon_probe_core, List.length_eq_zero]

/-- A group's recorded sensors are empty exactly when no child of the
group resolves. -/
theorem groupSensors_eq_nil_iff (smc : AppleSmc) (g : Option (List DTNode)) :
    groupSensors smc g = [] ↔ noResolvedSensorChild smc g := by
  cases g <;> simp [groupSensors, noResolvedSensorChild, populateLoop_eq_nil_iff]

/-- A group's recorded fans are empty exactly when no child of the
group resolves. -/
theorem groupFans_eq_nil_iff (smc : AppleSmc) (g : Option (List DTNode)) :
    groupFans smc g = [] ↔ noResolvedFanChild smc g := by
  cases g <;> simp [groupFans, noResolvedFanChild, populateFanLoop_eq_nil_iff]

/-- Reading a slot past the populated prefix of a well-formed group
yields the zeroed descriptor. -/
theorem sensorsWF_get_zero (g : MacsmcHwmonSensors) (hWF : sensorsWF g) (chan : Nat)
    (h1 : g.nSensors ≤ chan) (h2 : chan < g.sensors.length) :
    g.sensors.get? chan = some zeroSensor := by
  rcases hg : g.sensors.get? chan with _ | s
  · rw [List.get?_eq_get h2] at hg
    cases hg
  · have hmem : s ∈ g.sensors.drop g.nSensors := by
      have : (g.sensors.drop g.nSensors).get? (chan - g.nSensors) = some s := by
        rw [List.get?_drop, Nat.add_sub_cancel' h1, hg]
      exact List.get?_mem this
    rw [hWF.2 s hmem]

/-- Fan version of sensorsWF_get_zero. -/
theorem fansWF_get_zero (g : MacsmcHwmonFans) (hWF : fansWF g) (chan : Nat)
    (h1 : g.nFans ≤ chan) (h2 : chan < g.fans.length) :
    g.fans.get? chan = some zeroFan := by
  rcases hg : g.fans.get? chan with _ | f
  · rw [List.get?_eq_get h2] at hg
    cases hg
  · have hmem : f ∈ g.fans.drop g.nFans := by
      have : (g.fans.drop g.nFans).get? (chan - g.nFans) = some f := by
        rw [List.get?_drop, Nat.add_sub_cancel' h1, hg]
      exact List.get?_mem this
    rw [hWF.2 f hmem]

/-- Dispatching on the zeroed descriptor: the type code matches
neither encoding, so read_key returns -EOPNOTSUPP and never calls the
transport. -/
theorem read_key_zeroSensor (smc : AppleSmc) (scale : Nat) :
    macsmc_hwmon_read_key smc zeroSensor scale = (.error (-EOPNOTSUPP), []) := by
  rfl

/-- The optional-fan-key helper contributes its capability bit exactly
when the property is present and its key resolves. -/
theorem parseOptFanKey_bit (smc : AppleSmc) (p : Option String) (bit : Nat) :
    (parseOptFanKey smc p bit).2 =
      if (p.bind smc.getKeyInfo).isSome then bit else 0 := by
  cases p with
  | none => rfl
  | some k =>
    simp only [parseOptFanKey, macsmc_hwmon_parse_key, Option.bind_some]
    cases h : smc.getKeyInfo k <;> simp [h]

/-! ## Claims -/

/-- Claim C2 (code bug): the claim says the float decoder's biased
exponent is bits 30 to 23 of the word — at most 255 and independent of
the sign bit — and that the decoder returns exactly zero whenever that
exponent and the mantissa are both zero.  The source computes
`exp = flt>>23` without masking, so at the negative-zero pattern
0x80000000 (bits 30 to 23 and 22 to 0 all zero, sign set) the exponent
the code uses is 256: above 255, different from the sign-clear value
0, and the `exp == 0 && mant == 0` zero test does not fire, sending
the decoder into the nonzero branch whose 64-bit left shift by
exp - 127 = 129 is undefined behaviour in C.  The all-zero word itself
still decodes to 0. -/
theorem claim_C2_exp_includes_sign :
    f32_exp 0x80000000 = 256 ∧
    ¬f32_exp 0x80000000 ≤ 255 ∧
    f32_exp 0 = 0 ∧
    f32_exp 0x80000000 % 2 ^ 8 = 0 ∧
    f32_mant 0x80000000 = 0 ∧
    ¬(f32_exp 0x80000000 = 0 ∧ f32_mant 0x80000000 = 0) ∧
    macsmc_f32_to_u32 0 = 0 := by
  decide

/-- Claim C3 (code bug): the claim says flipping only the sign bit
negates the decoded value.  Because the source's exponent includes the
sign bit, decoding 0xBF000000 (minus a half) left-shifts a 64-bit
value by 382 - 127 = 255 — undefined behaviour in C; under truncating
shift semantics (and equally under ARM64's shift-amount masking) the
result is 0, not the negation of the 500 produced for 0x3F000000. -/
theorem claim_C3_sign_not_antisymmetric :
    macsmc_f32_to_u32 0x3F000000 = 500 ∧
    macsmc_f32_to_u32 0xBF000000 = 0 ∧
    asS32 (macsmc_f32_to_u32 0xBF000000) ≠ -asS32 (macsmc_f32_to_u32 0x3F000000) := by
  decide

/-- Claim C4 (code bug): the claim says a transport failure during a
read is returned to the caller unchanged and the output is not
reported as a successful reading.  applesmc-arm.c's macsmc_hwmon_read
stores the transport status in `ret` and never tests it: with every
transport read failing with -5, the read still returns success with
the decoded zero buffer (value 0) after one transport call.  The newer
macsmc-hwmon.c read_key does fail, but replaces the transport's code
with -EINVAL rather than passing it through. -/
theorem claim_C4_transport_error_swallowed :
    applesmc_arm_read smcFailRead armData .temp 0 = some (.ok 0, ["TSCD"]) ∧
    macsmc_hwmon_read_key smcFailRead sensorFlt 1000 = (.error (-EINVAL), ["Tp01"]) ∧
    (-EINVAL : Int) ≠ -5 := by
  decide

/-- Claim C5: in a group with N children of which M resolve, the
population loop yields exactly the M resolved children's sensors in
child order (the filterMap of create_sensor), of length the count of
resolvable children; a failing child is skipped without displacing
later entries or aborting the walk; and whenever at least one child
resolved, populate_sensors reports success with exactly that list. -/
theorem claim_C5_group_population (smc : AppleSmc) (children pre post : List DTNode)
    (bad : DTNode) (hbad : macsmc_hwmon_create_sensor smc bad = none) :
    populateLoop smc children = children.filterMap (macsmc_hwmon_create_sensor smc) ∧
    (populateLoop smc children).length =
      children.countP (fun n => (macsmc_hwmon_create_sensor smc n).isSome) ∧
    populateLoop smc (pre ++ bad :: post) = populateLoop smc (pre ++ post) ∧
    (populateLoop smc children ≠ [] →
      macsmc_hwmon_populate_sensors smc (some children) = .ok (populateLoop smc children)) := by
  refine ⟨populateLoop_eq_filterMap smc children, populateLoop_length smc children, ?_, ?_⟩
  · induction pre with
    | nil => simp [populateLoop, hbad]
    | cons a pre ih =>
      cases h : macsmc_hwmon_create_sensor smc a <;>
        simp [populateLoop, h, ih]
  · intro hne
    have hc : ¬children.length = 0 := by
      intro h
      rw [List.length_eq_zero] at h
      subst h
      exact hne rfl
    have hl : ¬(populateLoop smc children).length = 0 := by
      rw [List.length_eq_zero]
      exact hne
    simp [macsmc_hwmon_populate_sensors, hc, hl]

/-- Witness for claim C5 at a concrete three-child group in which the
middle child's key does not resolve. -/
theorem claim_C5_group_population_witness :
    macsmc_hwmon_create_sensor smcSel nodeBad = none ∧
    populateLoop smcSel [nodeA, nodeBad, nodeC] =
      List.filterMap (macsmc_hwmon_create_sensor smcSel) [nodeA, nodeBad, nodeC] ∧
    populateLoop smcSel ([nodeA] ++ nodeBad :: [nodeC]) =
      populateLoop smcSel ([nodeA] ++ [nodeC]) ∧
    macsmc_hwmon_populate_sensors smcSel (some [nodeA, nodeBad, nodeC]) =
      .ok (populateLoop smcSel [nodeA, nodeBad, nodeC]) := by
  have h := claim_C5_group_population smcSel [nodeA, nodeBad, nodeC] [nodeA] [nodeC]
    nodeBad (by decide)
  exact ⟨by decide, h.1, h.2.2.1, h.2.2.2 (by decide)⟩

/-- Claim C9 (code bug): the claim says an assigned label is always a
NUL-terminated string of at most 31 meaningful characters inside the
32-byte field.  The source uses strncpy with n = 32, so a 40-character
key-desc fills all 32 bytes with no terminating zero: create_sensor
yields a label buffer of 32 copies of the byte 97 containing no NUL,
and reading it as a C string runs past the field. -/
theorem claim_C9_label_unterminated :
    macsmc_hwmon_create_sensor smcSel nodeC9 = some sC9 ∧
    sC9.label.length = 32 ∧
    (0 : Nat) ∉ sC9.label ∧
    (strBytes longLabel).length = 40 := by
  decide

/-- Claim C10 (code bug): the claim says the config builders write the
flag into entries 0 to n-1 and the zero terminator at entry n, exactly
the n+1 slots the probe routine reserves.  The loop leaves idx = n and
the source then stores through `configs[idx + 1]`: for n = 1 the
stores are at indices 0 and 2 — the reserved terminator slot 1 is
never written (it only reads as zero because devm_kzalloc pre-zeroed
it) and index 2 lies beyond the two reserved slots.  The fan-config
builder has the same stores. -/
theorem claim_C10_terminator_off_by_one :
    macsmc_hwmon_populate_configs 1 6 = [(0, 6), (2, 0)] ∧
    (1 : Nat) ∉ (macsmc_hwmon_populate_configs 1 6).map Prod.fst ∧
    (2 : Nat) ∈ (macsmc_hwmon_populate_configs 1 6).map Prod.fst ∧
    ¬(2 : Nat) < 1 + 1 ∧
    macsmc_hwmon_populate_fan_configs 1 [fanW] = [(0, fanW.attrs), (2, 0)] := by
  decide

/-- Claim C1 counterexample: the claim says read(group, index) for an
index at or past the group's length always returns OutOfRange (the
-EINVAL the driver's own label lookup uses for a bad channel).  In a
state whose temperature group has populated length 1 inside a two-slot
allocation, reading channel 1 instead dispatches on the zeroed
descriptor and returns -EOPNOTSUPP ≠ -EINVAL (with no transport call);
only the label lookup returns -EINVAL there. -/
theorem claim_C1_counterexample :
    macsmc_hwmon_read hwC1 .temp 0 1 = some (.error (-EOPNOTSUPP), []) ∧
    (-EOPNOTSUPP : Int) ≠ -EINVAL ∧
    macsmc_hwmon_read_label hwC1 .temp 1 = .error (-EINVAL) := by
  decide

/-- Claim C1 as amended: macsmc_hwmon_read performs no bounds check.
For any channel at or past the populated count but within the
allocated (zero-initialised) key array of a well-formed state, the
sensor groups return -EOPNOTSUPP (unknown type code) and the fan group
returns -EINVAL (zero capability mask), in every case with no
transport call; and the label lookup — the only bounds-checked reader
— returns -EINVAL for the same channel.  Channels past the allocation
are undefined behaviour (the embedding's None). -/
theorem claim_C1_amended (hw : MacsmcHwmon) (type : HwmonType) (attr chan : Nat)
    (hwf : hwmonWF hw) (h1 : populatedCount hw type ≤ chan)
    (h2 : chan < allocatedCount hw type) :
    macsmc_hwmon_read hw type attr chan = some (.error (oorCode type), []) ∧
    macsmc_hwmon_read_label hw type chan = .error (-EINVAL) := by
  cases type with
  | temp =>
    rw [populatedCount] at h1
    rw [allocatedCount] at h2
    have hz := sensorsWF_get_zero hw.temp hwf.1 chan h1 h2
    rw [List.get?_eq_getElem?] at hz
    constructor
    · simp [macsmc_hwmon_read, hz, read_key_zeroSensor, oorCode]
    · simp [macsmc_hwmon_read_label, h1]
  | voltage =>
    rw [populatedCount] at h1
    rw [allocatedCount] at h2
    have hz := sensorsWF_get_zero hw.volt hwf.2.1 chan h1 h2
    rw [List.get?_eq_getElem?] at hz
    constructor
    · simp [macsmc_hwmon_read, hz, read_key_zeroSensor, oorCode]
    · simp [macsmc_hwmon_read_label, h1]
  | current =>
    rw [populatedCount] at h1
    rw [allocatedCount] at h2
    have hz := sensorsWF_get_zero hw.curr hwf.2.2.1 chan h1 h2
    rw [List.get?_eq_getElem?] at hz
    constructor
    · simp [macsmc_hwmon_read, hz, read_key_zeroSensor, oorCode]
    · simp [macsmc_hwmon_read_label, h1]
  | power =>
    rw [populatedCount] at h1
    rw [allocatedCount] at h2
    have hz := sensorsWF_get_zero hw.power hwf.2.2.2.1 chan h1 h2
    rw [List.get?_eq_getElem?] at hz
    constructor
    · simp [macsmc_hwmon_read, hz, read_key_zeroSensor, oorCode]
    · simp [macsmc_hwmon_read_label, h1]
  | fan =>
    rw [populatedCount] at h1
    rw [allocatedCount] at h2
    have hz := fansWF_get_zero hw.fan hwf.2.2.2.2 chan h1 h2
    rw [List.get?_eq_getElem?] at hz
    constructor
    · simp [macsmc_hwmon_read, macsmc_hwmon_read_fan, hz, zeroFan, oorCode,
        Nat.zero_and]
    · simp [macsmc_hwmon_read_label, h1]

/-- Witness for the amended claim C1, at the allocated-but-unpopulated
fan slot of the concrete state hwC1. -/
theorem claim_C1_amended_witness :
    macsmc_hwmon_read hwC1 .fan 3 0 = some (.error (-EINVAL), []) ∧
    macsmc_hwmon_read_label hwC1 .fan 0 = .error (-EINVAL) := by
  have h := claim_C1_amended hwC1 .fan 3 0 (by decide) (by decide) (by decide)
  exact ⟨h.1, h.2⟩

/-- Claim C6: registry construction fails (with -ENODEV) exactly when
all five groups end with zero entries — that is, exactly when every
group node is absent, childless, or has no resolvable child; any other
combination is accepted and the built registry carries exactly the
five populated group lists. -/
theorem claim_C6_fail_iff_all_empty (smc : AppleSmc) (node : HwmonNode) :
    ((∃ e, macsmc_hwmon_probe_core smc node = .error e) ↔
      (noResolvedSensorChild smc node.tempKeys ∧
       noResolvedSensorChild smc node.voltKeys ∧
       noResolvedSensorChild smc node.currKeys ∧
       noResolvedSensorChild smc node.powerKeys ∧
       noResolvedFanChild smc node.fanKeys)) ∧
    (∀ r, macsmc_hwmon_probe_core smc node = .ok r →
      r.temp = groupSensors smc node.tempKeys ∧
      r.volt = groupSensors smc node.voltKeys ∧
      r.curr = groupSensors smc node.currKeys ∧
      r.power = groupSensors smc node.powerKeys ∧
      r.fans = groupFans smc node.fanKeys) := by
  have hpc := probe_core_eq smc node
  by_cases hC : groupSensors smc node.tempKeys = [] ∧
      groupSensors smc node.voltKeys = [] ∧
      groupSensors smc node.currKeys = [] ∧
      groupSensors smc node.powerKeys = [] ∧
      groupFans smc node.fanKeys = []
  · constructor
    · constructor
      · intro _
        obtain ⟨c1, c2, c3, c4, c5⟩ := hC
        exact ⟨(groupSensors_eq_nil_iff smc _).mp c1,
          (groupSensors_eq_nil_iff smc _).mp c2,
          (groupSensors_eq_nil_iff smc _).mp c3,
          (groupSensors_eq_nil_iff smc _).mp c4,
          (groupFans_eq_nil_iff smc _).mp c5⟩
      · intro _
        exact ⟨-ENODEV, by rw [hpc, if_pos hC]⟩
    · intro r hr
      rw [hpc, if_pos hC] at hr
      cases hr
  · constructor
    · constructor
      · intro ⟨e, he⟩
        rw [hpc, if_neg hC] at he
        cases he
      · intro ⟨c1, c2, c3, c4, c5⟩
        rw [← groupSensors_eq_nil_iff smc _] at c1 c2 c3 c4
        rw [← groupFans_eq_nil_iff smc _] at c5
        exact absurd ⟨c1, c2, c3, c4, c5⟩ hC
    · intro r hr
      rw [hpc, if_neg hC] at hr
      injection hr with h
      subst h
      exact ⟨rfl, rfl, rfl, rfl, rfl⟩

/-- Witness for claim C6: a description node on which nothing resolves
makes the build fail, and a node with one resolvable temperature child
yields the registry carrying exactly that temperature group. -/
theorem claim_C6_fail_iff_all_empty_witness :
    (∃ e, macsmc_hwmon_probe_core smcSel nodeEmptyW = .error e) ∧
    regW.temp = groupSensors smcSel nodeOkW.tempKeys := by
  refine ⟨(claim_C6_fail_iff_all_empty smcSel nodeEmptyW).1.mpr ?_, ?_⟩
  · refine ⟨?_, ?_, ?_, ?_, ?_⟩ <;> decide
  · exact ((claim_C6_fail_iff_all_empty smcSel nodeOkW).2 regW (by decide)).1


/-- Claim C7: for an in-range fan channel and each of the four
readable fields (input, min, max, target), read_fan returns -EINVAL
with no transport call exactly when the fan's capability bitmask lacks
the field's bit, and when the bit is set it dispatches to read_key on
that field's descriptor (at scale 1). -/
theorem claim_C7_capability_gate (hw : MacsmcHwmon) (chan attr : Nat)
    (f : MacsmcHwmonFan) (hchan : chan < hw.fan.nFans)
    (hlen : hw.fan.nFans ≤ hw.fan.fans.length)
    (hf : hw.fan.fans.get? chan = some f)
    (hattr : attr = hwmon_fan_input ∨ attr = hwmon_fan_min ∨
      attr = hwmon_fan_max ∨ attr = hwmon_fan_target) :
    (f.attrs &&& (1 <<< attr) = 0 →
      macsmc_hwmon_read_fan hw attr chan = some (.error (-EINVAL), [])) ∧
    (f.attrs &&& (1 <<< attr) ≠ 0 →
      macsmc_hwmon_read_fan hw attr chan =
        some (macsmc_hwmon_read_key hw.smc (fanFieldSensor f attr) 1)) := by
  rw [List.get?_eq_getElem?] at hf
  constructor
  · intro h0
    simp [macsmc_hwmon_read_fan, hf, h0]
  · intro hne
    rcases hattr with h | h | h | h <;> subst h
    · have hne2 : ¬f.attrs &&& 2 = 0 := by simpa [hwmon_fan_input] using hne
      simp [macsmc_hwmon_read_fan, hf, hne2, fanFieldSensor, hwmon_fan_input]
    · have hne2 : ¬f.attrs &&& 8 = 0 := by simpa [hwmon_fan_min] using hne
      simp [macsmc_hwmon_read_fan, hf, hne2, fanFieldSensor, hwmon_fan_input,
        hwmon_fan_min]
    · have hne2 : ¬f.attrs &&& 16 = 0 := by simpa [hwmon_fan_max] using hne
      simp [macsmc_hwmon_read_fan, hf, hne2, fanFieldSensor, hwmon_fan_input,
        hwmon_fan_min, hwmon_fan_max]
    · have hne2 : ¬f.attrs &&& 128 = 0 := by simpa [hwmon_fan_target] using hne
      simp [macsmc_hwmon_read_fan, hf, hne2, fanFieldSensor, hwmon_fan_input,
        hwmon_fan_min, hwmon_fan_max, hwmon_fan_target]

/-- Witness for claim C7 at a concrete one-fan state whose fan has
only LABEL and INPUT capabilities: reading min yields -EINVAL with no
transport call, reading input dispatches to the tachometer key. -/
theorem claim_C7_capability_gate_witness :
    macsmc_hwmon_read_fan hwF hwmon_fan_min 0 = some (.error (-EINVAL), []) ∧
    macsmc_hwmon_read_fan hwF hwmon_fan_input 0 =
      some (macsmc_hwmon_read_key hwF.smc (fanFieldSensor fanW hwmon_fan_input) 1) := by
  constructor
  · exact (claim_C7_capability_gate hwF 0 hwmon_fan_min fanW (by decide) (by decide)
      (by decide) (Or.inr (Or.inl rfl))).1 (by decide)
  · exact (claim_C7_capability_gate hwF 0 hwmon_fan_input fanW (by decide) (by decide)
      (by decide) (Or.inl rfl)).2 (by decide)

/-- Claim C8: a fan child is dropped exactly when its mandatory
apple,key-id is absent or fails to resolve (and a dropped child does
not abort the fan walk); a built fan descriptor's capability bitmask
always contains LABEL and INPUT, and contains MIN (respectively MAX,
TARGET) exactly when the corresponding optional property is present
and its key resolves. -/
theorem claim_C8_fan_capabilities (smc : AppleSmc) (node : DTNode)
    (rest : List DTNode) :
    (macsmc_hwmon_create_fan smc node = none ↔
      node.keyId.bind smc.getKeyInfo = none) ∧
    (∀ f, macsmc_hwmon_create_fan smc node = some f →
      (f.attrs.testBit hwmon_fan_label ∧ f.attrs.testBit hwmon_fan_input ∧
       f.attrs.testBit hwmon_fan_min = (node.fanMin.bind smc.getKeyInfo).isSome ∧
       f.attrs.testBit hwmon_fan_max = (node.fanMax.bind smc.getKeyInfo).isSome ∧
       f.attrs.testBit hwmon_fan_target = (node.fanTarget.bind smc.getKeyInfo).isSome)) ∧
    (macsmc_hwmon_create_fan smc node = none →
      populateFanLoop smc (node :: rest) = populateFanLoop smc rest) := by
  refine ⟨?_, ?_, ?_⟩
  · rcases hk : node.keyId with _ | k
    · simp [macsmc_hwmon_create_fan, hk]
    · cases hi : smc.getKeyInfo k <;>
        simp [macsmc_hwmon_create_fan, macsmc_hwmon_parse_key, hk, hi]
  · intro f hf
    rcases hk : node.keyId with _ | k
    · simp [macsmc_hwmon_create_fan, hk] at hf
    · rcases hi : smc.getKeyInfo k with _ | info
      · simp [macsmc_hwmon_create_fan, macsmc_hwmon_parse_key, hk, hi] at hf
      · simp only [macsmc_hwmon_create_fan, macsmc_hwmon_parse_key, hk, hi,
          Option.some.injEq] at hf
        subst hf
        simp only [parseOptFanKey_bit]
        cases hmin : (node.fanMin.bind smc.getKeyInfo).isSome <;>
          cases hmax : (node.fanMax.bind smc.getKeyInfo).isSome <;>
          cases htgt : (node.fanTarget.bind smc.getKeyInfo).isSome <;>
          exact ⟨by decide, by decide, by decide, by decide, by decide⟩
  · intro h
    simp [populateFanLoop, h]

/-- Witness for claim C8 at a concrete fan node whose tachometer and
minimum keys resolve, whose maximum key does not, and which has no
target property: the built fan has the MIN bit and lacks the MAX and
TARGET bits. -/
theorem claim_C8_fan_capabilities_witness :
    (macsmc_hwmon_create_fan smcSel nodeFanW).isSome = true ∧
    ∃ f, macsmc_hwmon_create_fan smcSel nodeFanW = some f ∧
      f.attrs.testBit hwmon_fan_label ∧ f.attrs.testBit hwmon_fan_input ∧
      f.attrs.testBit hwmon_fan_min = true ∧ f.attrs.testBit hwmon_fan_max = false ∧
      f.attrs.testBit hwmon_fan_target = false := by
  rcases ho : macsmc_hwmon_create_fan smcSel nodeFanW with _ | f
  · exact absurd ((claim_C8_fan_capabilities smcSel nodeFanW []).1.mp ho) (by decide)
  · have h := (claim_C8_fan_capabilities smcSel nodeFanW []).2.1 f ho
    refine ⟨rfl, f, rfl, h.1, h.2.1, ?_, ?_, ?_⟩
    · rw [h.2.2.1]; decide
    · rw [h.2.2.2.1]; decide
    · rw [h.2.2.2.2]; decide
